import Mathlib

/-!
A verification development for the mcp-helper repository: a shallow
embedding of the Envoy external-processing mediator (ext-proc/request.go,
ext-proc/response.go, pkg/bbr/handlers/server.go), the session registry of
main.go, and the per-client connection factory, together with theorems about
the routing, rewriting and session-mapping behaviour.

Go strings are modelled as lists of characters (`Str`); Go byte lengths
coincide with list lengths on the ASCII data handled here.  Dynamic JSON
values decoded by encoding/json into `map[string]any` are modelled by `JVal`:
the Go code only ever distinguishes strings, objects and "anything else" via
type assertions, so all other dynamic values collapse into `JVal.other`.
Go maps are association lists with unique keys; `lookupKey` is map indexing
and `setKey` is map assignment.  External library effects (the JSON parser,
backend handshakes) enter as explicit parameters of the functions that
invoke them.
-/

namespace MCPHelper

abbrev Str := List Char

/-- Dynamic JSON values as decoded into Go's `map[string]any`.  The code in
request.go only applies `.(string)` and `.(map[string]interface{})` type
assertions, so every other dynamic type is observationally `other`. -/
inductive JVal : Type where
  | s (v : Str) : JVal
  | obj (fields : List (Str × JVal)) : JVal
  | other : JVal

/-- Go map indexing `m[k]` (comma-ok form): the value stored at `k`. -/
def lookupKey : List (Str × JVal) → Str → Option JVal
  | [], _ => none
  | (k, v) :: rest, key => if k = key then some v else lookupKey rest key

/-- Go map assignment `m[k] = v`: replace the entry at `k`, or add it. -/
def setKey : List (Str × JVal) → Str → JVal → List (Str × JVal)
  | [], key, v => [(key, v)]
  | (k, w) :: rest, key, v =>
      if k = key then (k, v) :: rest else (k, w) :: setKey rest key v

/-! ## Header names and JSON keys (ext-proc/request.go) -/

def toolHeader : Str := "x-mcp-toolname".toList

def serverHeader : Str := "x-mcp-server".toList

def sessionHeader : Str := "mcp-session-id".toList

def contentLengthHeader : Str := "content-length".toList

def jsonrpcKey : Str := "jsonrpc".toList

def methodKey : Str := "method".toList

def paramsKey : Str := "params".toList

def nameKey : Str := "name".toList

/-- extractMCPToolName (ext-proc/request.go): pulls `params.name` out of a
decoded body when it is a JSON-RPC 2.0 `tools/call` request; every failed
lookup or type assertion returns the empty string. -/
def extractMCPToolName (data : List (Str × JVal)) : Str :=
  match lookupKey data jsonrpcKey with
  | some (JVal.s jsonrpcStr) =>
    if jsonrpcStr ≠ "2.0".toList then [] else
    match lookupKey data methodKey with
    | some (JVal.s methodStr) =>
      if methodStr ≠ "tools/call".toList then [] else
      match lookupKey data paramsKey with
      | some (JVal.obj paramsMap) =>
        match lookupKey paramsMap nameKey with
        | some (JVal.s nameStr) => nameStr
        | _ => []
      | _ => []
    | _ => []
  | _ => []

/-- One entry of the `serverConfigs` table (ext-proc/request.go). -/
structure ServerConfig where
  pfx : Str
  target : Str
deriving DecidableEq

/-- Server configuration for tool processing (ext-proc/request.go). -/
def serverConfigs : List ServerConfig :=
  [⟨"server1-".toList, "server1".toList⟩, ⟨"server2-".toList, "server2".toList⟩]

/-- The loop body of getRouteTargetFromTool: first config whose pfx matches. -/
def routeLoop : List ServerConfig → Str → Str
  | [], _ => []
  | c :: rest, toolName =>
      if c.pfx.isPrefixOf toolName then c.target else routeLoop rest toolName

/-- getRouteTargetFromTool (ext-proc/request.go): which server to route to,
based on the tool-name prefix; empty string when none matches. -/
def getRouteTargetFromTool (toolName : Str) : Str :=
  routeLoop serverConfigs toolName

/-- The loop body of stripServerPrefix: strings.TrimPrefix on the first
matching config. -/
def stripLoop : List ServerConfig → Str → Str × Bool
  | [], toolName => (toolName, false)
  | c :: rest, toolName =>
      if c.pfx.isPrefixOf toolName then (toolName.drop c.pfx.length, true)
      else stripLoop rest toolName

/-- stripServerPrefix (ext-proc/request.go): removes the serverN- prefix from
a tool name, returning the stripped name and whether stripping happened. -/
def stripServerPrefix (toolName : Str) : Str × Bool :=
  stripLoop serverConfigs toolName

/-! ## The Envoy ext-proc message model (go-control-plane protobufs)

Only the parts the mediator populates are modelled: header mutations
(SetHeaders), body mutations (whole or streamed), ClearRouteCache, and
immediate error responses. -/

structure HeaderKV where
  key : Str
  value : Str
deriving DecidableEq

inductive BodyMut : Type where
  | whole (body : Str)
  | streamed (body : Str) (endOfStream : Bool)
deriving DecidableEq

structure CommonResponse where
  clearRouteCache : Bool
  setHeaders : List HeaderKV
  bodyMutation : Option BodyMut
deriving DecidableEq

/-- A ProcessingResponse sent back to Envoy; `none` payloads are the empty
HeadersResponse/BodyResponse messages. -/
inductive ProcessingResponse : Type where
  | requestHeaders (r : Option CommonResponse)
  | requestBody (r : Option CommonResponse)
  | responseHeaders (r : Option CommonResponse)
  | immediate (status : Int) (body : Str) (details : Str)
deriving DecidableEq

/-- The CommonResponse carried by a ProcessingResponse, if any. -/
def commonOf : ProcessingResponse → Option CommonResponse
  | .requestHeaders r => r
  | .requestBody r => r
  | .responseHeaders r => r
  | .immediate _ _ _ => none

/-- All SetHeaders mutations carried by a list of responses, in order. -/
def setHeadersOf (rs : List ProcessingResponse) : List HeaderKV :=
  rs.foldr (fun r acc =>
    (match commonOf r with
     | some c => c.setHeaders
     | none => []) ++ acc) []

/-- Whether any response in the list sets ClearRouteCache. -/
def clearRouteCacheOf (rs : List ProcessingResponse) : Bool :=
  rs.any (fun r =>
    match commonOf r with
    | some c => c.clearRouteCache
    | none => false)

/-- The concatenated body-mutation bytes carried by a list of responses. -/
def bodyBytesOf (rs : List ProcessingResponse) : Str :=
  rs.foldr (fun r acc =>
    (match commonOf r with
     | some c =>
       match c.bodyMutation with
       | some (.whole b) => b
       | some (.streamed b _) => b
       | none => []
     | none => []) ++ acc) []

/-- Whether any response in the list carries a body mutation. -/
def hasBodyMutation (rs : List ProcessingResponse) : Bool :=
  rs.any (fun r =>
    match commonOf r with
    | some c => c.bodyMutation.isSome
    | none => false)

/-! ## json.Marshal (encoding/json, external)

A canonical serializer standing in for `json.Marshal` on the decoded map:
the mediator only forwards its output and measures its length, so any
concrete serializer is a faithful model of the library call. -/

def quoteChar : Char := Char.ofNat 34

def openBrace : Char := Char.ofNat 123

def closeBrace : Char := Char.ofNat 125

mutual

/-- Serialization of one dynamic value. -/
def marshalVal : JVal → Str
  | .s v => quoteChar :: v ++ [quoteChar]
  | .obj fs => openBrace :: marshalFields fs ++ [closeBrace]
  | .other => "null".toList

/-- Serialization of an object's fields. -/
def marshalFields : List (Str × JVal) → Str
  | [] => []
  | (k, v) :: rest =>
      (quoteChar :: k ++ [quoteChar]) ++ ':' :: marshalVal v ++
      (if rest.isEmpty then [] else [',']) ++ marshalFields rest

end

/-- `json.Marshal(modifiedData)` on the top-level decoded map. -/
def marshalObj (data : List (Str × JVal)) : Str :=
  marshalVal (JVal.obj data)

/-- Decimal rendering of a length, as `fmt.Sprintf("%d", len(bodyBytes))`. -/
def natToStr (n : Nat) : Str :=
  (Nat.repr n).toList

/-! ## The session mapping and the ext-proc Server state
(pkg/bbr/handlers/server.go, ext-proc/request.go) -/

/-- SessionMapping (pkg/bbr/handlers/server.go): the mapping between a
helper/gateway session and the two backend sessions. -/
structure SessionMapping where
  helperSessionID : Str
  server1SessionID : Str
  server2SessionID : Str
deriving DecidableEq

/-- The ext-proc Server (pkg/bbr/handlers/server.go): the static streaming
mode, the request headers stored by Process for later body handling, and the
helper's GetSessionMapping lookup (`none` models a nil helper). -/
structure Server where
  streaming : Bool
  requestHeaders : Option (List HeaderKV)
  helper : Option (Str → Option SessionMapping)

/-- Lower-casing of a header key, as strings.ToLower on ASCII keys. -/
def lowerStr (v : Str) : Str :=
  v.map Char.toLower

/-- The header-scanning loop of extractSessionFromContext: value of the
first header whose lower-cased key is mcp-session-id, else empty. -/
def findSessionHeader : List HeaderKV → Str
  | [] => []
  | h :: rest =>
      if lowerStr h.key = sessionHeader then h.value else findSessionHeader rest

/-- extractSessionFromContext (ext-proc/request.go): the mcp-session-id value
from the stored request headers, empty when the headers or the entry are
missing. -/
def extractSessionFromContext (s : Server) : Str :=
  match s.requestHeaders with
  | none => []
  | some hs => findSessionHeader hs

/-- createEmptyBodyResponse (ext-proc/request.go): a response that does not
modify the request; its message kind depends on the streaming mode. -/
def createEmptyBodyResponse (s : Server) : List ProcessingResponse :=
  if s.streaming then [.requestHeaders none] else [.requestBody none]

/-- createErrorResponse (ext-proc/request.go): an ImmediateResponse with the
given status code, message body, and detail string. -/
def createErrorResponse (message : Str) (statusCode : Int) :
    List ProcessingResponse :=
  [.immediate statusCode message ("ext-proc error: ".toList ++ message)]

/-- addStreamedBodyResponse (ext-proc/request.go): appends the streamed body
mutation message with EndOfStream set. -/
def addStreamedBodyResponse (responses : List ProcessingResponse)
    (requestBodyBytes : Str) : List ProcessingResponse :=
  responses ++
    [.requestBody (some ⟨false, [], some (.streamed requestBodyBytes true)⟩)]

/-- The SetHeaders list built by createRoutingResponse: toolname and server
headers, the backend session header when one is present, and the
content-length recomputed from the rewritten body. -/
def routingHeaders (toolName bodyBytes routeTarget backendSession : Str) :
    List HeaderKV :=
  ([⟨toolHeader, toolName⟩, ⟨serverHeader, routeTarget⟩] ++
   (if backendSession ≠ [] then [⟨sessionHeader, backendSession⟩] else []))
  ++ [⟨contentLengthHeader, natToStr bodyBytes.length⟩]

/-- createRoutingResponse (ext-proc/request.go): the routing headers with
ClearRouteCache, carrying the rewritten body; two messages in streaming
mode (headers first, then the streamed body with EndOfStream), one message
in non-streaming mode. -/
def createRoutingResponse (s : Server) (toolName bodyBytes routeTarget
    backendSession : Str) : List ProcessingResponse :=
  if s.streaming then
    addStreamedBodyResponse
      [.requestHeaders (some
        ⟨true, routingHeaders toolName bodyBytes routeTarget backendSession,
         none⟩)] bodyBytes
  else
    [.requestBody (some
      ⟨true, routingHeaders toolName bodyBytes routeTarget backendSession,
       some (.whole bodyBytes)⟩)]

/-- The body-rewriting step of HandleRequestBody: copy the decoded map and,
when params is an object, set its name field to the stripped tool name. -/
def rewriteParamsName (data : List (Str × JVal)) (strippedToolName : Str) :
    List (Str × JVal) :=
  match lookupKey data paramsKey with
  | some (JVal.obj ps) =>
      setKey data paramsKey (JVal.obj (setKey ps nameKey (JVal.s strippedToolName)))
  | _ => data

/-- The backend-session selection of HandleRequestBody: server1's session ID
when routing to server1, else server2's. -/
def selectBackendSession (routeTarget : Str) (m : SessionMapping) : Str :=
  if routeTarget = "server1".toList then m.server1SessionID
  else m.server2SessionID

/-- HandleRequestBody (ext-proc/request.go): pass non-tool-calls and
unrecognized prefixes through unchanged; otherwise strip the prefix,
rewrite params.name, and route — 400 when no session header was stored,
500 when the helper is nil or has no mapping, else the routing response
with the backend's session identifier. -/
def HandleRequestBody (s : Server) (data : List (Str × JVal)) :
    List ProcessingResponse :=
  let toolName := extractMCPToolName data
  if toolName = [] then createEmptyBodyResponse s
  else
    let routeTarget := getRouteTargetFromTool toolName
    if routeTarget = [] then createEmptyBodyResponse s
    else
      let strippedToolName := ( stripServerPrefix toolName).1
      let requestBodyBytes := marshalObj (rewriteParamsName data strippedToolName)
      let helperSession := extractSessionFromContext s
      if helperSession = [] then
        createErrorResponse "No session ID found".toList 400
      else
        match s.helper with
        | none => createErrorResponse "Helper not available".toList 500
        | some getMapping =>
          match getMapping helperSession with
          | none => createErrorResponse "Session mapping not found".toList 500
          | some sessionMapping =>
            createRoutingResponse s toolName requestBodyBytes routeTarget
              (selectBackendSession routeTarget sessionMapping)

/-! ## Response-header handling (ext-proc/response.go) -/

def srv1SessionPfx : Str := "server1-session-".toList

def srv2SessionPfx : Str := "server2-session-".toList

/-- A pass-through ResponseHeaders message (no mutation). -/
def passthroughResponseHeaders : List ProcessingResponse :=
  [.responseHeaders none]

/-- The header-scanning loop of HandleResponseHeaders: value of the first
response header whose lower-cased key is mcp-session-id, else empty. -/
def findResponseSessionID : List HeaderKV → Str
  | [] => []
  | h :: rest =>
      if lowerStr h.key = sessionHeader then h.value
      else findResponseSessionID rest

/-- HandleResponseHeaders (ext-proc/response.go): when the response's
mcp-session-id value starts with serverN-session-, substitute the remainder
after the 16-character prefix; otherwise (or when the header or headers are
absent) pass through unchanged. -/
def HandleResponseHeaders (headers : Option (List HeaderKV)) :
    List ProcessingResponse :=
  match headers with
  | none => passthroughResponseHeaders
  | some hs =>
    let mcpSessionID := findResponseSessionID hs
    if mcpSessionID = [] then passthroughResponseHeaders
    else if srv1SessionPfx.isPrefixOf mcpSessionID then
      [.responseHeaders (some ⟨false,
        [⟨sessionHeader, mcpSessionID.drop 16⟩], none⟩)]
    else if srv2SessionPfx.isPrefixOf mcpSessionID then
      [.responseHeaders (some ⟨false,
        [⟨sessionHeader, mcpSessionID.drop 16⟩], none⟩)]
    else passthroughResponseHeaders

/-! ## Body accumulation (pkg/bbr/handlers/server.go)

processRequestBody takes the external JSON parser (encoding/json's
Unmarshal on the accumulated bytes) as an explicit parameter `parse`; a
`none` result is an Unmarshal error.  The returned pair is (outcome, new
stream buffer); `Except.error` is the `return nil, err` path that fails the
ext-proc stream, and an `ok []` sends no message yet. -/

def processRequestBody (s : Server)
    (parse : Str → Option (List (Str × JVal)))
    (buffered : Str) (chunk : Str) (endOfStream : Bool) :
    Except Unit (List ProcessingResponse) × Str :=
  if s.streaming then
    let buffered' := buffered ++ chunk
    if endOfStream then
      match parse buffered' with
      | some requestBody => (.ok (HandleRequestBody s requestBody), buffered')
      | none => (.ok (HandleRequestBody s []), buffered')
    else (.ok [], buffered')
  else
    match parse chunk with
    | some requestBody => (.ok (HandleRequestBody s requestBody), buffered)
    | none => (.error (), buffered)

/-- Feeding a request body to the mediator as successive chunks, the last
one flagged EndOfStream — the shape of the ProcessingRequest_RequestBody
messages Process receives in streaming mode. -/
def feedChunks (s : Server) (parse : Str → Option (List (Str × JVal)))
    (buffered : Str) :
    List Str → Except Unit (List ProcessingResponse) × Str
  | [] => (.ok [], buffered)
  | [chunk] => processRequestBody s parse buffered chunk true
  | chunk :: rest =>
      feedChunks s parse (processRequestBody s parse buffered chunk false).2 rest

/-! ## The session registry of main.go

Backend handshakes are external I/O: each invocation's outcome enters as an
`Except Str Str` — the backend-assigned session identifier, or the
connection/handshake error.  The registry state is threaded explicitly; the
Go methods mutate their receiver only at the store sites modelled here. -/

/-- ClientBackendConnections (main.go), restricted to the observable
fields: the two client handles are opaque and the timestamps are wall-clock
I/O, so the record keeps the session identifiers. -/
structure ConnRecord where
  clientSessionID : Str
  server1SessionID : Str
  server2SessionID : Str
deriving DecidableEq

/-- Lookup in a registry map (association list with unique keys). -/
def lookupMap {α : Type} : List (Str × α) → Str → Option α
  | [], _ => none
  | (k, v) :: rest, key => if k = key then some v else lookupMap rest key

/-- Store into a registry map: replace the entry at the key, or add it. -/
def setMap {α : Type} : List (Str × α) → Str → α → List (Str × α)
  | [], key, v => [(key, v)]
  | (k, w) :: rest, key, v =>
      if k = key then (k, v) :: rest else (k, w) :: setMap rest key v

/-- The MCPHelper registry state: clientConnections and sessionMappings
(main.go). -/
structure HelperState where
  clientConnections : List (Str × ConnRecord)
  sessionMappings : List (Str × SessionMapping)
deriving DecidableEq

/-- createBackendConnectionsForSession (main.go): initialize server1 then
server2; on either failure return the wrapped error with the registry state
untouched; on success store the connection record and return it. -/
def createBackendConnectionsForSession (st : HelperState)
    (helperSessionID : Str) (server1Init server2Init : Except Str Str) :
    HelperState × Except Str ConnRecord :=
  match server1Init with
  | .error e =>
      (st, .error ("failed to create server1 connection: ".toList ++ e))
  | .ok sessionID1 =>
    match server2Init with
    | .error e =>
        (st, .error ("failed to create server2 connection: ".toList ++ e))
    | .ok sessionID2 =>
      let connections : ConnRecord := ⟨helperSessionID, sessionID1, sessionID2⟩
      ({ st with clientConnections :=
          (setMap st.clientConnections helperSessionID connections) },
       .ok connections)

/-- handleInitialization (main.go): create the backend connections and, on
success, store the session mapping under the helper session identifier; on
failure return the wrapped error. -/
def handleInitialization (st : HelperState) (helperSessionID : Str)
    (server1Init server2Init : Except Str Str) :
    HelperState × Except Str Unit :=
  match createBackendConnectionsForSession st helperSessionID
      server1Init server2Init with
  | (st', .error e) =>
      (st', .error ("failed to create backend connections: ".toList ++ e))
  | (st', .ok connections) =>
      ({ st' with sessionMappings :=
          (setMap st'.sessionMappings helperSessionID
            ⟨helperSessionID, connections.server1SessionID,
             connections.server2SessionID⟩) },
       .ok ())

/-- GetSessionMapping (main.go): the published mapping for a helper session
identifier, if any. -/
def GetSessionMapping (st : HelperState) (helperSessionID : Str) :
    Option SessionMapping :=
  lookupMap st.sessionMappings helperSessionID

/-- The trigger condition of sessionCapturingWriter.Write (main.go): every
Write call whose response headers carry a non-empty mcp-session-id spawns a
handleInitialization for that identifier. -/
def writeTriggersInitialization (responseHeaders : List HeaderKV) : Bool :=
  findSessionHeader responseHeaders ≠ []

/-! ## getOrCreateClientConnections as a concurrent program (src/unnamed/part_000)

The Go routine does three atomic phases: a shared-lock read of
clientConnections (RLock..RUnlock), the creation of the backend connection
set with no lock held, and an exclusive-lock store (Lock..Unlock).  The
interleaving of two first calls for the same session identifier is made
explicit: `RegState` is the shared registry plus the count of connection
sets actually created (the connection-counting mock backend of the spec's
test), and a schedule drives one atomic phase of one task at a time. -/

/-- The shared registry of getOrCreateClientConnections: the
clientConnections map (connection sets named by creation order) and how
many connection sets have been created so far. -/
structure RegState where
  connMap : List (Str × Nat)
  created : Nat
deriving DecidableEq

/-- The program counter of one getOrCreateClientConnections call. -/
inductive TaskPC : Type where
  | start
  | creating
  | storing (c : Nat)
  | finished (c : Nat)
deriving DecidableEq

/-- One atomic phase of getOrCreateClientConnections for session `sid`:
the RLock-guarded existence check (returning the stored set when present),
the unguarded creation of a fresh backend connection set, and the
Lock-guarded store of the created set. -/
def taskStep (sid : Str) : RegState → TaskPC → RegState × TaskPC
  | st, .start =>
      (match lookupMap st.connMap sid with
       | some c => (st, .finished c)
       | none => (st, .creating))
  | st, .creating =>
      ({ st with created := st.created + 1 }, .storing st.created)
  | st, .storing c =>
      ({ st with connMap := (setMap st.connMap sid c) }, .finished c)
  | st, .finished c => (st, .finished c)

/-- Two concurrent getOrCreateClientConnections calls over one shared
registry. -/
structure TwoCalls where
  shared : RegState
  pc1 : TaskPC
  pc2 : TaskPC
deriving DecidableEq

/-- Run one atomic phase of the first (true) or second (false) call. -/
def schedStep (sid : Str) (w : TwoCalls) (takeFirst : Bool) : TwoCalls :=
  if takeFirst then
    ⟨(taskStep sid w.shared w.pc1).1, (taskStep sid w.shared w.pc1).2, w.pc2⟩
  else
    ⟨(taskStep sid w.shared w.pc2).1, w.pc1, (taskStep sid w.shared w.pc2).2⟩

/-- Run a schedule of interleaved phases. -/
def runSchedule (sid : Str) : List Bool → TwoCalls → TwoCalls
  | [], w => w
  | b :: rest, w => runSchedule sid rest (schedStep sid w b)

/-! ## Concrete instances used by closed theorems -/

/-- A gateway session identifier. -/
def gwSessionS : Str := "S".toList

/-- Both calls read (absent), both create, both store: a legal interleaving
of two concurrent first calls, since creation holds no lock. -/
def raceSchedule : List Bool := [true, false, true, false, true, false]

/-- The final configuration of the raced double GetOrCreate. -/
def raceResult : TwoCalls :=
  runSchedule gwSessionS raceSchedule ⟨⟨[], 0⟩, .start, .start⟩

/-- Backend session identifiers assigned by the first initialization. -/
def sesA1 : Str := "sess-a1".toList

def sesA2 : Str := "sess-a2".toList

/-- Backend session identifiers assigned by a second initialization. -/
def sesB1 : Str := "sess-b1".toList

def sesB2 : Str := "sess-b2".toList

/-- The registry state after one initialization trigger for session S. -/
def helperStateOnce : HelperState :=
  (handleInitialization ⟨[], []⟩ gwSessionS (.ok sesA1) (.ok sesA2)).1

/-- The registry state after a second initialization trigger for the same
session S (a second sessionCapturingWriter.Write with the session header
present). -/
def helperStateTwice : HelperState :=
  (handleInitialization helperStateOnce gwSessionS (.ok sesB1) (.ok sesB2)).1

/-- The Scenario-B request body:
`{"jsonrpc":"2.0","method":"tools/call","params":{"name":"server1-alpha","arguments":{}}}`. -/
def scenarioBBody : List (Str × JVal) :=
  [(jsonrpcKey, .s "2.0".toList),
   (methodKey, .s "tools/call".toList),
   (paramsKey, .obj [(nameKey, .s "server1-alpha".toList),
                     ("arguments".toList, .obj [])])]

/-- The session mapping published for S: backend sessions B1S and B2S. -/
def scenarioBMapping : SessionMapping :=
  ⟨gwSessionS, "B1S".toList, "B2S".toList⟩

/-- A helper lookup that knows only session S. -/
def scenarioBLookup : Str → Option SessionMapping :=
  fun g => if g = gwSessionS then some scenarioBMapping else none

/-- A non-streaming ext-proc server holding Scenario B's request headers
and the helper above. -/
def scenarioBServer : Server :=
  ⟨false, some [⟨sessionHeader, gwSessionS⟩], some scenarioBLookup⟩

/-- The same server with no published mapping for any session
(Scenario C). -/
def scenarioCServer : Server :=
  ⟨false, some [⟨sessionHeader, gwSessionS⟩], some (fun _ => none)⟩

/-- A server whose stored request headers carry no mcp-session-id. -/
def noSessionServer : Server :=
  ⟨false, some [⟨"content-type".toList, "application/json".toList⟩],
   some scenarioBLookup⟩

/-- A body on which encoding/json's Unmarshal fails. -/
def malformedBody : Str := "not json".toList

/-- The parse outcome of encoding/json on a malformed body. -/
def jsonParseFail : Str → Option (List (Str × JVal)) := fun _ => none

/-- A parse function standing for encoding/json on well-formed bodies: the
decoded map is an explicit table of the bodies used by closed theorems. -/
def jsonParseScenarioB : Str → Option (List (Str × JVal)) :=
  fun b => if b = marshalObj scenarioBBody then some scenarioBBody else none

/-- Modelled from the spec: the reverse mapping of a backend session
identifier through the published SessionMappings — the gateway session
whose mapping lists that backend session identifier (spec §4.3, response
headers). -/
def specReverseMap : List SessionMapping → Str → Option Str
  | [], _ => none
  | m :: rest, backendSid =>
      if m.server1SessionID = backendSid ∨ m.server2SessionID = backendSid
      then some m.helperSessionID
      else specReverseMap rest backendSid

/-- A mapping store publishing, for gateway session S, the server1 backend
session "server1-session-X" — a backend identifier that matches the
naming convention but whose suffix is not the gateway session identifier. -/
def cxMappingStore : List SessionMapping :=
  [⟨gwSessionS, "server1-session-X".toList, "b2sess".toList⟩]

/-- The response headers carrying that backend session identifier. -/
def cxResponseHeaders : List HeaderKV :=
  [⟨sessionHeader, "server1-session-X".toList⟩]

/-- `params.name` of a decoded body, when params is an object. -/
def paramsNameOf (data : List (Str × JVal)) : Option JVal :=
  match lookupKey data paramsKey with
  | some (JVal.obj ps) => lookupKey ps nameKey
  | _ => none

/-- The streaming-mode twin of scenarioBServer. -/
def streamingServer : Server :=
  ⟨true, some [⟨sessionHeader, gwSessionS⟩], some scenarioBLookup⟩

/-- Two chunks of a streamed request body. -/
def chunkA : Str := "ab".toList

def chunkB : Str := "cd".toList

/-- A well-formed JSON-RPC body that is not a tool call. -/
def nonToolBody : List (Str × JVal) :=
  [(jsonrpcKey, .s "2.0".toList), (methodKey, .s "tools/list".toList)]

/-! # Theorems -/

lemma isPrefixOf_append_self (p t : Str) : p.isPrefixOf (p ++ t) = true := by
  rw [List.isPrefixOf_iff_prefix]
  exact List.prefix_append p t

lemma isPrefixOf_append_ne (p q t : Str) (hlen : p.length = q.length)
    (hne : p ≠ q) : p.isPrefixOf (q ++ t) = false := by
  cases hb : p.isPrefixOf (q ++ t) with
  | false => rfl
  | true =>
    exfalso
    have hp : p <+: q ++ t := List.isPrefixOf_iff_prefix.mp hb
    have h1 : p = (q ++ t).take p.length := List.prefix_iff_eq_take.mp hp
    rw [hlen, List.take_left] at h1
    exact hne h1

/-- C4: for every configured backend and every tool name `t` in its catalog,
routing the qualified name `pfx ++ t` yields that backend, and stripping the
recognized prefix from it yields exactly `t` (round-trip law over
getRouteTargetFromTool and stripServerPrefix). -/
theorem routeFor_strip_roundTrip (cfg : ServerConfig)
    (hcfg : cfg ∈ serverConfigs) (t : Str) :
    getRouteTargetFromTool (cfg.pfx ++ t) = cfg.target ∧
    stripServerPrefix (cfg.pfx ++ t) = (t, true) := by
  have hlen : ("server1-".toList : Str).length = ("server2-".toList : Str).length := by
    decide
  have hne : ("server1-".toList : Str) ≠ "server2-".toList := by decide
  simp only [serverConfigs, List.mem_cons, List.not_mem_nil, or_false] at hcfg
  rcases hcfg with rfl | rfl
  · constructor
    · simp [getRouteTargetFromTool, routeLoop, serverConfigs,
        isPrefixOf_append_self]
    · simp [stripServerPrefix, stripLoop, serverConfigs,
        isPrefixOf_append_self, List.drop_left]
  · constructor
    · simp [getRouteTargetFromTool, routeLoop, serverConfigs,
        isPrefixOf_append_self, isPrefixOf_append_ne _ _ t hlen hne]
    · simp [stripServerPrefix, stripLoop, serverConfigs,
        isPrefixOf_append_self, isPrefixOf_append_ne _ _ t hlen hne,
        List.drop_left]

theorem routeFor_strip_roundTrip_witness :
    (⟨"server1-".toList, "server1".toList⟩ : ServerConfig) ∈ serverConfigs ∧
    (getRouteTargetFromTool ("server1-".toList ++ "alpha".toList) =
        "server1".toList ∧
      stripServerPrefix ("server1-".toList ++ "alpha".toList) =
        ("alpha".toList, true)) :=
  ⟨by decide,
   routeFor_strip_roundTrip ⟨"server1-".toList, "server1".toList⟩ (by decide)
     "alpha".toList⟩

/-- C3 (code bug): a second initialization trigger for the same gateway
session identifier re-creates the backend connections and overwrites the
published SessionMapping with the new backend session identifiers, so the
mapping is not immutable; every sessionCapturingWriter.Write whose response
headers carry the session identifier fires such a trigger. -/
theorem sessionMapping_overwritten_on_reinit :
    GetSessionMapping helperStateOnce gwSessionS =
      some ⟨gwSessionS, sesA1, sesA2⟩ ∧
    GetSessionMapping helperStateTwice gwSessionS =
      some ⟨gwSessionS, sesB1, sesB2⟩ ∧
    (⟨gwSessionS, sesA1, sesA2⟩ : SessionMapping) ≠
      ⟨gwSessionS, sesB1, sesB2⟩ ∧
    writeTriggersInitialization [⟨sessionHeader, gwSessionS⟩] = true := by
  decide

/-- C8: when either backend initialization fails, handleInitialization
leaves the registry state exactly as it was — no SessionMapping and no
connection set is published for the gateway session, which therefore stays
absent — and surfaces the wrapped error to the caller. -/
theorem failedCreation_leaves_registry_unchanged
    (st : HelperState) (sid e s1 : Str) (r2 : Except Str Str)
    (habsMap : GetSessionMapping st sid = none)
    (habsConn : lookupMap st.clientConnections sid = none) :
    handleInitialization st sid (.error e) r2 =
      (st, .error ("failed to create backend connections: ".toList ++
        ("failed to create server1 connection: ".toList ++ e))) ∧
    handleInitialization st sid (.ok s1) (.error e) =
      (st, .error ("failed to create backend connections: ".toList ++
        ("failed to create server2 connection: ".toList ++ e))) ∧
    GetSessionMapping (handleInitialization st sid (.error e) r2).1 sid =
      none ∧
    GetSessionMapping (handleInitialization st sid (.ok s1) (.error e)).1
      sid = none ∧
    lookupMap
      ((handleInitialization st sid (.ok s1) (.error e)).1).clientConnections
      sid = none :=
  ⟨rfl, rfl, habsMap, habsMap, habsConn⟩

theorem failedCreation_leaves_registry_unchanged_witness :
    handleInitialization ⟨[], []⟩ gwSessionS (.error "conn refused".toList)
        (.ok sesA2) =
      (⟨[], []⟩, .error ("failed to create backend connections: ".toList ++
        ("failed to create server1 connection: ".toList ++
          "conn refused".toList))) ∧
    handleInitialization ⟨[], []⟩ gwSessionS (.ok sesA1)
        (.error "conn refused".toList) =
      (⟨[], []⟩, .error ("failed to create backend connections: ".toList ++
        ("failed to create server2 connection: ".toList ++
          "conn refused".toList))) ∧
    GetSessionMapping
      (handleInitialization ⟨[], []⟩ gwSessionS
        (.error "conn refused".toList) (.ok sesA2)).1 gwSessionS = none ∧
    GetSessionMapping
      (handleInitialization ⟨[], []⟩ gwSessionS (.ok sesA1)
        (.error "conn refused".toList)).1 gwSessionS = none ∧
    lookupMap
      ((handleInitialization ⟨[], []⟩ gwSessionS (.ok sesA1)
        (.error "conn refused".toList)).1).clientConnections gwSessionS =
      none :=
  failedCreation_leaves_registry_unchanged ⟨[], []⟩ gwSessionS
    "conn refused".toList sesA1 (.ok sesA2) rfl rfl

/-- C9 (code bug): two concurrent first getOrCreateClientConnections calls
for the same never-seen session identifier can interleave read, read,
create, create, store, store — the existence check is outside the creation
— so two backend connection sets are created and the two callers observe
different connection sets, with the last store winning in the registry. -/
theorem concurrent_getOrCreate_duplicates :
    raceResult.shared.created = 2 ∧
    raceResult.pc1 = .finished 0 ∧
    raceResult.pc2 = .finished 1 ∧
    raceResult.pc1 ≠ raceResult.pc2 ∧
    lookupMap raceResult.shared.connMap gwSessionS = some 1 := by
  decide

lemma lookupKey_setKey_self (ps : List (Str × JVal)) (k : Str) (v : JVal) :
    lookupKey (setKey ps k v) k = some v := by
  induction ps with
  | nil => simp [setKey, lookupKey]
  | cons hd tl ih =>
    obtain ⟨k', v'⟩ := hd
    by_cases hk : k' = k
    · simp [setKey, lookupKey, hk]
    · simp [setKey, lookupKey, hk, ih]

/-- A recognized tool call has an object under params whose name field is
the extracted tool name. -/
lemma extract_spec (data : List (Str × JVal)) (tn : Str)
    (htn : extractMCPToolName data = tn) (h : tn ≠ []) :
    ∃ ps, lookupKey data paramsKey = some (JVal.obj ps) ∧
      lookupKey ps nameKey = some (JVal.s tn) := by
  unfold extractMCPToolName at htn
  repeat' split at htn
  all_goals
    first
      | exact absurd htn.symm h
      | (subst htn; exact ⟨_, by assumption, by assumption⟩)

/-- Rewriting params.name of a recognized tool call stores the given name. -/
lemma rewriteParamsName_sets_name (data : List (Str × JVal)) (n : Str)
    (h : extractMCPToolName data ≠ []) :
    paramsNameOf (rewriteParamsName data n) = some (JVal.s n) := by
  obtain ⟨ps, hp, -⟩ := extract_spec data _ rfl h
  simp [paramsNameOf, rewriteParamsName, hp, lookupKey_setKey_self]

/-- Routing the empty tool name matches no configured prefix. -/
lemma routeTarget_nil : getRouteTargetFromTool ([] : Str) = [] := by decide

/-- The mutation content of createRoutingResponse is mode-independent. -/
lemma createRoutingResponse_mutations (s : Server) (tn body rt bs : Str) :
    setHeadersOf (createRoutingResponse s tn body rt bs) =
      routingHeaders tn body rt bs ∧
    clearRouteCacheOf (createRoutingResponse s tn body rt bs) = true ∧
    bodyBytesOf (createRoutingResponse s tn body rt bs) = body := by
  cases hst : s.streaming <;>
    simp [createRoutingResponse, addStreamedBodyResponse, setHeadersOf,
      clearRouteCacheOf, bodyBytesOf, commonOf, hst]

/-- C1: a tools/call request with a recognized backend prefix, presented for
a gateway session with a published SessionMapping, yields the routing
mutation: params.name rewritten to the prefix-stripped tool name, the
backend-selection header set to the backend identifier, the session header
set to the backend's session identifier, content-length set to the byte
length of the rewritten body, ClearRouteCache signalled, and the rewritten
body carried. -/
theorem toolCall_routing_mutation (s : Server) (data : List (Str × JVal))
    (f : Str → Option SessionMapping) (m : SessionMapping)
    (tn rt stripped body bs : Str)
    (htn : extractMCPToolName data = tn)
    (hrt : getRouteTargetFromTool tn = rt)
    (hrtne : rt ≠ [])
    (hstr : ( stripServerPrefix tn).1 = stripped)
    (hbody : marshalObj (rewriteParamsName data stripped) = body)
    (hgw : extractSessionFromContext s ≠ [])
    (hf : s.helper = some f)
    (hm : f (extractSessionFromContext s) = some m)
    (hsel : selectBackendSession rt m = bs)
    (hbs : bs ≠ []) :
    HandleRequestBody s data = createRoutingResponse s tn body rt bs ∧
    setHeadersOf (HandleRequestBody s data) = routingHeaders tn body rt bs ∧
    (⟨serverHeader, rt⟩ : HeaderKV) ∈ setHeadersOf (HandleRequestBody s data) ∧
    (⟨sessionHeader, bs⟩ : HeaderKV) ∈ setHeadersOf (HandleRequestBody s data) ∧
    (⟨contentLengthHeader, natToStr body.length⟩ : HeaderKV) ∈
      setHeadersOf (HandleRequestBody s data) ∧
    clearRouteCacheOf (HandleRequestBody s data) = true ∧
    bodyBytesOf (HandleRequestBody s data) = body ∧
    paramsNameOf (rewriteParamsName data stripped) = some (JVal.s stripped) := by
  subst htn hrt hstr hbody hsel
  have hex : extractMCPToolName data ≠ [] := by
    intro hnil
    rw [hnil, routeTarget_nil] at hrtne
    exact hrtne rfl
  have hres : HandleRequestBody s data =
      createRoutingResponse s (extractMCPToolName data)
        (marshalObj (rewriteParamsName data
          ( stripServerPrefix (extractMCPToolName data)).1))
        (getRouteTargetFromTool (extractMCPToolName data))
        (selectBackendSession
          (getRouteTargetFromTool (extractMCPToolName data)) m) := by
    simp only [HandleRequestBody]
    simp [hex, hrtne, hgw, hf, hm]
  obtain ⟨hh, hc, hb⟩ := createRoutingResponse_mutations s
    (extractMCPToolName data)
    (marshalObj (rewriteParamsName data
      ( stripServerPrefix (extractMCPToolName data)).1))
    (getRouteTargetFromTool (extractMCPToolName data))
    (selectBackendSession (getRouteTargetFromTool (extractMCPToolName data)) m)
  refine ⟨hres, by rw [hres, hh], ?_, ?_, ?_, by rw [hres, hc],
    by rw [hres, hb], rewriteParamsName_sets_name data _ hex⟩
  · rw [hres, hh]
    simp [routingHeaders]
  · rw [hres, hh]
    simp [routingHeaders, hbs]
  · rw [hres, hh]
    simp [routingHeaders]

theorem toolCall_routing_mutation_witness :
    HandleRequestBody scenarioBServer scenarioBBody =
      createRoutingResponse scenarioBServer "server1-alpha".toList
        (marshalObj (rewriteParamsName scenarioBBody "alpha".toList))
        "server1".toList "B1S".toList ∧
    setHeadersOf (HandleRequestBody scenarioBServer scenarioBBody) =
      routingHeaders "server1-alpha".toList
        (marshalObj (rewriteParamsName scenarioBBody "alpha".toList))
        "server1".toList "B1S".toList ∧
    (⟨serverHeader, "server1".toList⟩ : HeaderKV) ∈
      setHeadersOf (HandleRequestBody scenarioBServer scenarioBBody) ∧
    (⟨sessionHeader, "B1S".toList⟩ : HeaderKV) ∈
      setHeadersOf (HandleRequestBody scenarioBServer scenarioBBody) ∧
    (⟨contentLengthHeader,
        natToStr (marshalObj
          (rewriteParamsName scenarioBBody "alpha".toList)).length⟩ :
      HeaderKV) ∈
      setHeadersOf (HandleRequestBody scenarioBServer scenarioBBody) ∧
    clearRouteCacheOf (HandleRequestBody scenarioBServer scenarioBBody) =
      true ∧
    bodyBytesOf (HandleRequestBody scenarioBServer scenarioBBody) =
      marshalObj (rewriteParamsName scenarioBBody "alpha".toList) ∧
    paramsNameOf (rewriteParamsName scenarioBBody "alpha".toList) =
      some (JVal.s "alpha".toList) :=
  toolCall_routing_mutation scenarioBServer scenarioBBody scenarioBLookup
    scenarioBMapping "server1-alpha".toList "server1".toList
    "alpha".toList
    (marshalObj (rewriteParamsName scenarioBBody "alpha".toList))
    "B1S".toList (by decide) (by decide) (by decide) (by decide) rfl
    (by decide) rfl rfl rfl (by decide)

/-- C2: a recognized tools/call whose presented gateway session has no
published SessionMapping yields the immediate 500 error response, with no
header mutation, no body mutation, no routing signal, and no synthesized
fallback session (the result is exactly the error response). -/
theorem missingMapping_failFast (s : Server) (data : List (Str × JVal))
    (f : Str → Option SessionMapping)
    (htool : getRouteTargetFromTool (extractMCPToolName data) ≠ [])
    (hgw : extractSessionFromContext s ≠ [])
    (hf : s.helper = some f)
    (hm : f (extractSessionFromContext s) = none) :
    HandleRequestBody s data =
      createErrorResponse "Session mapping not found".toList 500 ∧
    HandleRequestBody s data =
      [.immediate 500 "Session mapping not found".toList
        ("ext-proc error: ".toList ++ "Session mapping not found".toList)] ∧
    setHeadersOf (HandleRequestBody s data) = [] ∧
    hasBodyMutation (HandleRequestBody s data) = false ∧
    clearRouteCacheOf (HandleRequestBody s data) = false := by
  have hex : extractMCPToolName data ≠ [] := by
    intro hnil
    rw [hnil, routeTarget_nil] at htool
    exact htool rfl
  have hres : HandleRequestBody s data =
      createErrorResponse "Session mapping not found".toList 500 := by
    simp only [HandleRequestBody]
    simp [hex, htool, hgw, hf, hm]
  exact ⟨hres, by rw [hres]; rfl, by rw [hres]; rfl, by rw [hres]; rfl,
    by rw [hres]; rfl⟩

theorem missingMapping_failFast_witness :
    HandleRequestBody scenarioCServer scenarioBBody =
      createErrorResponse "Session mapping not found".toList 500 ∧
    HandleRequestBody scenarioCServer scenarioBBody =
      [.immediate 500 "Session mapping not found".toList
        ("ext-proc error: ".toList ++ "Session mapping not found".toList)] ∧
    setHeadersOf (HandleRequestBody scenarioCServer scenarioBBody) = [] ∧
    hasBodyMutation (HandleRequestBody scenarioCServer scenarioBBody) =
      false ∧
    clearRouteCacheOf (HandleRequestBody scenarioCServer scenarioBBody) =
      false :=
  missingMapping_failFast scenarioCServer scenarioBBody (fun _ => none)
    (by decide) (by decide) rfl rfl

/-- Scanning headers none of which is the session header yields nothing. -/
lemma findSessionHeader_absent (hs : List HeaderKV)
    (h : ∀ kv ∈ hs, lowerStr kv.key ≠ sessionHeader) :
    findSessionHeader hs = [] := by
  induction hs with
  | nil => rfl
  | cons hd tl ih =>
    rw [findSessionHeader, if_neg (h hd (by simp))]
    exact ih (fun kv hkv => h kv (by simp [hkv]))

/-- C10: a recognized prefixed tools/call whose stored request headers carry
no mcp-session-id at all yields the immediate 400 error response — a status
distinct from the 500 used when a session is present but unmapped — with no
header mutation, no body mutation and no routing signal. -/
theorem missingSessionHeader_400 (s : Server) (data : List (Str × JVal))
    (htool : getRouteTargetFromTool (extractMCPToolName data) ≠ [])
    (hhdr : s.requestHeaders = none ∨
      ∃ hs, s.requestHeaders = some hs ∧
        ∀ kv ∈ hs, lowerStr kv.key ≠ sessionHeader) :
    HandleRequestBody s data =
      createErrorResponse "No session ID found".toList 400 ∧
    HandleRequestBody s data =
      [.immediate 400 "No session ID found".toList
        ("ext-proc error: ".toList ++ "No session ID found".toList)] ∧
    setHeadersOf (HandleRequestBody s data) = [] ∧
    hasBodyMutation (HandleRequestBody s data) = false ∧
    clearRouteCacheOf (HandleRequestBody s data) = false ∧
    (400 : Int) ≠ 500 := by
  have hex : extractMCPToolName data ≠ [] := by
    intro hnil
    rw [hnil, routeTarget_nil] at htool
    exact htool rfl
  have hgw : extractSessionFromContext s = [] := by
    rcases hhdr with hnone | ⟨hs, hsome, habs⟩
    · simp [extractSessionFromContext, hnone]
    · simp [extractSessionFromContext, hsome,
        findSessionHeader_absent hs habs]
  have hres : HandleRequestBody s data =
      createErrorResponse "No session ID found".toList 400 := by
    simp only [HandleRequestBody]
    simp [hex, htool, hgw]
  exact ⟨hres, by rw [hres]; rfl, by rw [hres]; rfl, by rw [hres]; rfl,
    by rw [hres]; rfl, by decide⟩

theorem missingSessionHeader_400_witness :
    HandleRequestBody noSessionServer scenarioBBody =
      createErrorResponse "No session ID found".toList 400 ∧
    HandleRequestBody noSessionServer scenarioBBody =
      [.immediate 400 "No session ID found".toList
        ("ext-proc error: ".toList ++ "No session ID found".toList)] ∧
    setHeadersOf (HandleRequestBody noSessionServer scenarioBBody) = [] ∧
    hasBodyMutation (HandleRequestBody noSessionServer scenarioBBody) =
      false ∧
    clearRouteCacheOf (HandleRequestBody noSessionServer scenarioBBody) =
      false ∧
    (400 : Int) ≠ 500 :=
  missingSessionHeader_400 noSessionServer scenarioBBody (by decide)
    (Or.inr ⟨[⟨"content-type".toList, "application/json".toList⟩], rfl,
      by decide⟩)

/-- C5 counterexample: on a body that fails JSON parsing, the non-streaming
mediator aborts processing with an error instead of passing the request
through, while the streaming mediator passes it through unchanged — so the
claim's "malformed JSON-RPC body passes through unchanged" fails in
non-streaming mode. -/
theorem malformedBody_nonstreaming_error :
    (processRequestBody scenarioBServer jsonParseFail [] malformedBody
      true).1 = Except.error () ∧
    (processRequestBody streamingServer jsonParseFail [] malformedBody
      true).1 = Except.ok (HandleRequestBody streamingServer []) ∧
    HandleRequestBody streamingServer [] =
      createEmptyBodyResponse streamingServer :=
  ⟨rfl, rfl, rfl⟩

/-- C5 (amended): every parsed body that does not resolve to a recognized
prefixed tool call passes through with no header mutation, no body
mutation and no routing signal; an unparseable body passes through only in
streaming mode, and aborts the exchange with an error in non-streaming
mode. -/
theorem passthrough_nonroutable (s : Server) (data : List (Str × JVal))
    (parse : Str → Option (List (Str × JVal))) (buffered chunk : Str)
    (hnotool : getRouteTargetFromTool (extractMCPToolName data) = []) :
    HandleRequestBody s data = createEmptyBodyResponse s ∧
    setHeadersOf (HandleRequestBody s data) = [] ∧
    hasBodyMutation (HandleRequestBody s data) = false ∧
    clearRouteCacheOf (HandleRequestBody s data) = false ∧
    (s.streaming = true → parse (buffered ++ chunk) = none →
      processRequestBody s parse buffered chunk true =
        (Except.ok (HandleRequestBody s []), buffered ++ chunk)) ∧
    (s.streaming = false → parse chunk = none →
      (processRequestBody s parse buffered chunk true).1 =
        Except.error ()) := by
  have hres : HandleRequestBody s data = createEmptyBodyResponse s := by
    by_cases hex : extractMCPToolName data = []
    · simp only [HandleRequestBody]
      simp [hex]
    · simp only [HandleRequestBody]
      simp [hex, hnotool]
  have hmut : setHeadersOf (HandleRequestBody s data) = [] ∧
      hasBodyMutation (HandleRequestBody s data) = false ∧
      clearRouteCacheOf (HandleRequestBody s data) = false := by
    rw [hres]
    cases hst : s.streaming <;>
      simp [createEmptyBodyResponse, setHeadersOf, hasBodyMutation,
        clearRouteCacheOf, commonOf, hst]
  refine ⟨hres, hmut.1, hmut.2.1, hmut.2.2, ?_, ?_⟩
  · intro hstream hparse
    simp [processRequestBody, hstream, hparse]
  · intro hstream hparse
    simp [processRequestBody, hstream, hparse]

theorem passthrough_nonroutable_witness :
    HandleRequestBody scenarioBServer nonToolBody =
      createEmptyBodyResponse scenarioBServer ∧
    setHeadersOf (HandleRequestBody scenarioBServer nonToolBody) = [] ∧
    hasBodyMutation (HandleRequestBody scenarioBServer nonToolBody) =
      false ∧
    clearRouteCacheOf (HandleRequestBody scenarioBServer nonToolBody) =
      false ∧
    (scenarioBServer.streaming = true →
      jsonParseFail ([] ++ malformedBody) = none →
      processRequestBody scenarioBServer jsonParseFail [] malformedBody
        true =
        (Except.ok (HandleRequestBody scenarioBServer []),
          [] ++ malformedBody)) ∧
    (scenarioBServer.streaming = false → jsonParseFail malformedBody = none →
      (processRequestBody scenarioBServer jsonParseFail [] malformedBody
        true).1 = Except.error ()) :=
  passthrough_nonroutable scenarioBServer nonToolBody jsonParseFail []
    malformedBody (by decide)

/-- C6 counterexample: for the published mapping S ↦ server1 session
"server1-session-X", a response carrying that backend session identifier is
rewritten to "X" — the remainder after the naming-convention prefix — while
reverse-mapping through the SessionMapping yields the gateway session S;
the code never consults the mapping. -/
theorem responseSession_ignores_mapping_cx :
    HandleResponseHeaders (some cxResponseHeaders) =
      [.responseHeaders (some ⟨false, [⟨sessionHeader, "X".toList⟩],
        none⟩)] ∧
    specReverseMap cxMappingStore "server1-session-X".toList =
      some gwSessionS ∧
    ("X".toList : Str) ≠ gwSessionS :=
  ⟨rfl, rfl, by decide⟩

/-- C6 (amended): a response whose session header value matches the
backend-internal naming convention serverN-session- has the header
rewritten to the remainder of the value after that 16-character prefix —
the gateway session identifier only under the convention that backend
sessions are fabricated as serverN-session-&lt;gatewayID&gt;, the
SessionMapping being never consulted; a response whose session header is
absent or does not match passes through unchanged. -/
theorem responseSession_syntacticStrip (hs : List HeaderKV) :
    HandleResponseHeaders none = passthroughResponseHeaders ∧
    (findResponseSessionID hs = [] →
      HandleResponseHeaders (some hs) = passthroughResponseHeaders) ∧
    (∀ v, findResponseSessionID hs = v → v ≠ [] →
      srv1SessionPfx.isPrefixOf v = true →
      HandleResponseHeaders (some hs) =
        [.responseHeaders (some ⟨false, [⟨sessionHeader, v.drop 16⟩],
          none⟩)]) ∧
    (∀ v, findResponseSessionID hs = v → v ≠ [] →
      srv1SessionPfx.isPrefixOf v = false →
      srv2SessionPfx.isPrefixOf v = true →
      HandleResponseHeaders (some hs) =
        [.responseHeaders (some ⟨false, [⟨sessionHeader, v.drop 16⟩],
          none⟩)]) ∧
    (∀ v, findResponseSessionID hs = v →
      srv1SessionPfx.isPrefixOf v = false →
      srv2SessionPfx.isPrefixOf v = false →
      HandleResponseHeaders (some hs) = passthroughResponseHeaders) := by
  refine ⟨rfl, ?_, ?_, ?_, ?_⟩
  · intro hfind
    simp [HandleResponseHeaders, hfind]
  · intro v hfind hne hp1
    simp [HandleResponseHeaders, hfind, hne, hp1]
  · intro v hfind hne hp1 hp2
    simp [HandleResponseHeaders, hfind, hne, hp1, hp2]
  · intro v hfind hp1 hp2
    by_cases hve : v = []
    · simp [HandleResponseHeaders, hfind, hve]
    · simp [HandleResponseHeaders, hfind, hve, hp1, hp2]

/-- The streaming end-of-stream outcome depends only on the accumulated
bytes. -/
lemma processRequestBody_streaming_buf (s : Server)
    (parse : Str → Option (List (Str × JVal))) (h : s.streaming = true)
    (b1 c1 b2 c2 : Str) (hb : b1 ++ c1 = b2 ++ c2) :
    processRequestBody s parse b1 c1 true =
      processRequestBody s parse b2 c2 true := by
  simp [processRequestBody, h, hb]

/-- Feeding a chunked body equals feeding its concatenation whole. -/
lemma feedChunks_join (s : Server)
    (parse : Str → Option (List (Str × JVal))) (h : s.streaming = true)
    (chunks : List Str) :
    ∀ buffered, chunks ≠ [] →
      feedChunks s parse buffered chunks =
        processRequestBody s parse buffered chunks.flatten true := by
  induction chunks with
  | nil => intro _ hch; exact absurd rfl hch
  | cons c rest ih =>
    intro buffered _
    cases rest with
    | nil => simp [feedChunks, processRequestBody, h]
    | cons d ds =>
      have hstep : feedChunks s parse buffered (c :: d :: ds) =
          feedChunks s parse
            ((processRequestBody s parse buffered c false).2) (d :: ds) :=
        rfl
      have hbuf : (processRequestBody s parse buffered c false).2 =
          buffered ++ c := by
        simp [processRequestBody, h]
      rw [hstep, hbuf, ih (buffered ++ c) (by simp)]
      exact processRequestBody_streaming_buf s parse h _ _ _ _
        (by simp [List.append_assoc])

/-- C7: the streaming and non-streaming modes are observationally
equivalent downstream — the header mutation plus body bytes carried by the
two streaming messages (headers first, then the streamed body with
EndOfStream) equal the header mutation plus body carried by the single
non-streaming message, and feeding the body as chunks accumulated until
end-of-stream equals feeding the whole concatenated body. -/
theorem streaming_nonstreaming_equiv (s1 s2 : Server)
    (toolName bodyBytes routeTarget backendSession : Str)
    (parse : Str → Option (List (Str × JVal))) (chunks : List Str)
    (h1 : s1.streaming = true) (h2 : s2.streaming = false)
    (hch : chunks ≠ []) :
    createRoutingResponse s1 toolName bodyBytes routeTarget backendSession =
      [.requestHeaders (some ⟨true,
          routingHeaders toolName bodyBytes routeTarget backendSession,
          none⟩),
       .requestBody (some ⟨false, [], some (.streamed bodyBytes true)⟩)] ∧
    createRoutingResponse s2 toolName bodyBytes routeTarget backendSession =
      [.requestBody (some ⟨true,
          routingHeaders toolName bodyBytes routeTarget backendSession,
          some (.whole bodyBytes)⟩)] ∧
    setHeadersOf
        (createRoutingResponse s1 toolName bodyBytes routeTarget
          backendSession) =
      setHeadersOf
        (createRoutingResponse s2 toolName bodyBytes routeTarget
          backendSession) ∧
    clearRouteCacheOf
        (createRoutingResponse s1 toolName bodyBytes routeTarget
          backendSession) =
      clearRouteCacheOf
        (createRoutingResponse s2 toolName bodyBytes routeTarget
          backendSession) ∧
    bodyBytesOf
        (createRoutingResponse s1 toolName bodyBytes routeTarget
          backendSession) =
      bodyBytesOf
        (createRoutingResponse s2 toolName bodyBytes routeTarget
          backendSession) ∧
    feedChunks s1 parse [] chunks =
      processRequestBody s1 parse [] chunks.flatten true := by
  obtain ⟨hh1, hc1, hb1⟩ := createRoutingResponse_mutations s1 toolName
    bodyBytes routeTarget backendSession
  obtain ⟨hh2, hc2, hb2⟩ := createRoutingResponse_mutations s2 toolName
    bodyBytes routeTarget backendSession
  refine ⟨?_, ?_, hh1.trans hh2.symm, hc1.trans hc2.symm,
    hb1.trans hb2.symm, feedChunks_join s1 parse h1 chunks [] hch⟩
  · simp [createRoutingResponse, addStreamedBodyResponse, h1]
  · simp [createRoutingResponse, h2]

theorem streaming_nonstreaming_equiv_witness :
    createRoutingResponse streamingServer "server1-alpha".toList
        "body".toList "server1".toList "B1S".toList =
      [.requestHeaders (some ⟨true,
          routingHeaders "server1-alpha".toList "body".toList
            "server1".toList "B1S".toList, none⟩),
       .requestBody (some ⟨false, [],
          some (.streamed "body".toList true)⟩)] ∧
    createRoutingResponse scenarioBServer "server1-alpha".toList
        "body".toList "server1".toList "B1S".toList =
      [.requestBody (some ⟨true,
          routingHeaders "server1-alpha".toList "body".toList
            "server1".toList "B1S".toList,
          some (.whole "body".toList)⟩)] ∧
    setHeadersOf
        (createRoutingResponse streamingServer "server1-alpha".toList
          "body".toList "server1".toList "B1S".toList) =
      setHeadersOf
        (createRoutingResponse scenarioBServer "server1-alpha".toList
          "body".toList "server1".toList "B1S".toList) ∧
    clearRouteCacheOf
        (createRoutingResponse streamingServer "server1-alpha".toList
          "body".toList "server1".toList "B1S".toList) =
      clearRouteCacheOf
        (createRoutingResponse scenarioBServer "server1-alpha".toList
          "body".toList "server1".toList "B1S".toList) ∧
    bodyBytesOf
        (createRoutingResponse streamingServer "server1-alpha".toList
          "body".toList "server1".toList "B1S".toList) =
      bodyBytesOf
        (createRoutingResponse scenarioBServer "server1-alpha".toList
          "body".toList "server1".toList "B1S".toList) ∧
    feedChunks streamingServer jsonParseScenarioB [] [chunkA, chunkB] =
      processRequestBody streamingServer jsonParseScenarioB []
        ([chunkA, chunkB] : List Str).flatten true :=
  streaming_nonstreaming_equiv streamingServer scenarioBServer
    "server1-alpha".toList "body".toList "server1".toList "B1S".toList
    jsonParseScenarioB [chunkA, chunkB] rfl rfl (by decide)

end MCPHelper
